import Mathlib

/-!
Verification development for the android-action-kernel repository.

The Python sources under src/android_action_kernel/ are shallowly embedded:
Python strings are modelled at the character-list level where string
algorithms matter (`str.replace`, `str.split`, `str.strip`, `int(...)`),
JSON values by the inductive `JValue`, Python dicts by association lists
(first binding wins, as in insertion-ordered dicts that are never
re-assigned), device and LLM transports by oracle functions, and raised
exceptions by `Except` errors.  External stdlib pieces (`json.loads`,
`xml.etree` parsing into a node tree) are modelled by executable Lean
functions over the same data.
-/

/-- JSON values as produced by `json.loads` / consumed by the executor.
Numbers are modelled as integers: every numeric literal exercised by the
specification's claims is an integer. -/
inductive JValue where
  | null : JValue
  | bool (b : Bool) : JValue
  | num (n : Int) : JValue
  | str (s : String) : JValue
  | arr (elems : List JValue) : JValue
  | obj (fields : List (String × JValue)) : JValue

/-- A Python dict with string keys, in insertion order. -/
abbrev JObj := List (String × JValue)

/-- Association-list lookup: Python `d.get(key)` (keys are unique in a dict,
so first match is the value). -/
def alGet {α : Type} : List (String × α) → String → Option α
  | [], _ => none
  | (k, v) :: rest, key => if k == key then some v else alGet rest key

/-- Python truthiness (`bool(x)`) for JSON values. -/
def jFalsy : JValue → Bool
  | .null => true
  | .bool b => !b
  | .num n => n == 0
  | .str s => s == ""
  | .arr xs => xs.isEmpty
  | .obj fs => fs.isEmpty

/-- Characters stripped by Python `str.strip()`. -/
def isPySpace (c : Char) : Bool :=
  c == ' ' || c == '\t' || c == '\n' || c == '\r' || c == Char.ofNat 11 || c == Char.ofNat 12

/-- Python `str.strip()` on a character list. -/
def pyStrip (s : List Char) : List Char :=
  ((s.dropWhile isPySpace).reverse.dropWhile isPySpace).reverse

/-- Python `str.strip()` on a `String`. -/
def pyStripStr (s : String) : String :=
  String.mk (pyStrip s.toList)

/-- One step per character of Python `str.replace(old, new)` (all
non-overlapping occurrences, scanning left to right; callers always pass a
non-empty `old`). -/
def pyReplaceAux (old new : List Char) : Nat → List Char → List Char
  | _, [] => []
  | 0, s => s
  | fuel + 1, c :: rest =>
    if old.isPrefixOf (c :: rest) then
      new ++ pyReplaceAux old new fuel (List.drop old.length (c :: rest))
    else
      c :: pyReplaceAux old new fuel rest

/-- Python `s.replace(old, new)`. -/
def pyReplace (s old new : List Char) : List Char :=
  pyReplaceAux old new s.length s

/-- One step per character of Python `str.split(sep)` (non-empty `sep`). -/
def pySplitAux (sep : List Char) : Nat → List Char → List Char → List (List Char)
  | _, [], acc => [acc.reverse]
  | 0, s, acc => [acc.reverse ++ s]
  | fuel + 1, c :: rest, acc =>
    if sep.isPrefixOf (c :: rest) then
      acc.reverse :: pySplitAux sep fuel (List.drop sep.length (c :: rest)) []
    else
      pySplitAux sep fuel rest (c :: acc)

/-- Python `s.split(sep)` for a non-empty separator. -/
def pySplit (s sep : List Char) : List (List Char) :=
  pySplitAux sep s.length s []

/-- Accumulate decimal digits; fails on the first non-digit. -/
def parseDigitsAux : List Char → Nat → Option Nat
  | [], acc => some acc
  | c :: rest, acc =>
    if c.isDigit then parseDigitsAux rest (acc * 10 + (c.toNat - 48)) else none

/-- A non-empty all-digit run, as a natural number. -/
def parseDigits : List Char → Option Nat
  | [] => none
  | ds => parseDigitsAux ds 0

/-- Python `int(s)` for a decimal string: surrounding whitespace is
stripped, an optional single sign is allowed, then at least one digit.
(CPython additionally accepts underscore digit separators and non-ASCII
digits; no input in this codebase or its claims uses those.) -/
def pyInt? (s : List Char) : Option Int :=
  match pyStrip s with
  | [] => none
  | '+' :: ds => (parseDigits ds).map (fun n => (n : Int))
  | '-' :: ds => (parseDigits ds).map (fun n => -(n : Int))
  | ds => (parseDigits ds).map (fun n => (n : Int))

/-- Python substring test `needle in hay`. -/
def pyIn (needle : List Char) : List Char → Bool
  | [] => needle.isEmpty
  | c :: rest => needle.isPrefixOf (c :: rest) || pyIn needle rest

mutual

/-- Python `repr(x)` for the JSON values the code ever formats into
messages (dict reprs never reach a claim and are elided). -/
def pyRepr : JValue → String
  | .null => "None"
  | .bool true => "True"
  | .bool false => "False"
  | .num n => toString n
  | .str s => "\x27" ++ s ++ "\x27"
  | .arr xs => "[" ++ pyReprSeq xs ++ "]"
  | .obj _ => "\x7b...\x7d"

/-- Comma-separated `repr`s of list elements. -/
def pyReprSeq : List JValue → String
  | [] => ""
  | [x] => pyRepr x
  | x :: rest => pyRepr x ++ ", " ++ pyReprSeq rest

end

/-- Python `str(x)`: identity on strings, `repr` otherwise (for the types
appearing here). -/
def pyStr : JValue → String
  | .str s => s
  | v => pyRepr v

/-- Python `str.lower()` (ASCII data only in this codebase). -/
def pyLowerStr (s : String) : String :=
  String.mk (s.toList.map Char.toLower)

/-! ## UI sanitizer (src/android_action_kernel/sanitizer.py) -/

/-- One node of the accessibility tree produced by `ET.fromstring`:
an attribute dict plus child nodes, in document order. -/
inductive XMLNode where
  | mk (attrib : List (String × String)) (children : List XMLNode)

/-- The attribute dict of a node. -/
def XMLNode.attrib : XMLNode → List (String × String)
  | .mk a _ => a

/-- The children of a node. -/
def XMLNode.children : XMLNode → List XMLNode
  | .mk _ cs => cs

/-- `node.attrib.get(key)`. -/
def attrGet (n : XMLNode) (key : String) : Option String :=
  alGet' n.attrib key
where
  alGet' : List (String × String) → String → Option String
    | [], _ => none
    | (k, v) :: rest, key => if k == key then some v else alGet' rest key

/-- `node.attrib.get(key, default)`. -/
def attrGetD (n : XMLNode) (key dflt : String) : String :=
  (attrGet n key).getD dflt

/-- `_parse_bounds`: strip the bracket delimiters of `"[x1,y1][x2,y2]"`
and split on commas into exactly four integers; `none` is the
`BoundsParseError` outcome. -/
def parseBounds (s : String) : Option (Int × Int × Int × Int) :=
  let cs := pyReplace (pyReplace (pyReplace s.toList "][".toList ",".toList)
      "[".toList "".toList) "]".toList "".toList
  match pySplit cs ",".toList with
  | [a, b, c, d] =>
    match pyInt? a, pyInt? b, pyInt? c, pyInt? d with
    | some x1, some y1, some x2, some y2 => some (x1, y1, x2, y2)
    | _, _, _, _ => none
  | _ => none

/-- `_is_valid_bounds`: strictly positive width and height. -/
def isValidBounds (x1 y1 x2 y2 : Int) : Bool :=
  decide (x2 - x1 > 0) && decide (y2 - y1 > 0)

/-- `_is_interactive_element`: clickable, or the `focus`/`focusable`
attribute is `"true"`, or non-empty text, or non-empty content
description.  (The source reads the attribute named `focus` here, not
`focused`.) -/
def isInteractiveElement (n : XMLNode) : Bool :=
  let isClickable := attrGet n "clickable" == some "true"
  let isEditable := attrGet n "focus" == some "true" || attrGet n "focusable" == some "true"
  let hasText := attrGetD n "text" "" != ""
  let hasDesc := attrGetD n "content-desc" "" != ""
  isClickable || isEditable || hasText || hasDesc

/-- `_extract_element_data`: `none` when bounds are missing, unparseable
or degenerate; otherwise the element dict, fields in source insertion
order. -/
def extractElementData (n : XMLNode) : Option JObj :=
  match attrGet n "bounds" with
  | none => none
  | some bounds =>
    if bounds == "" then none
    else
      match parseBounds bounds with
      | none => none
      | some (x1, y1, x2, y2) =>
        if !isValidBounds x1 y1 x2 y2 then none
        else
          let centerX := (x1 + x2).fdiv 2
          let centerY := (y1 + y2).fdiv 2
          let text := attrGetD n "text" ""
          let contentDesc := attrGetD n "content-desc" ""
          let resourceId := attrGetD n "resource-id" ""
          let className := attrGetD n "class" ""
          let elementType :=
            if className == "" then ""
            else String.mk ((pySplit className.toList ".".toList).getLastD [])
          let pack := attrGetD n "package" ""
          let hint := attrGetD n "hint" ""
          let isClickable := attrGet n "clickable" == some "true"
          let isLongClickable := attrGet n "long-clickable" == some "true"
          let isFocusable := attrGet n "focusable" == some "true"
          let isFocused := attrGet n "focused" == some "true"
          let isEnabled := attrGetD n "enabled" "true" == "true"
          let isScrollable := attrGet n "scrollable" == some "true"
          let isCheckable := attrGet n "checkable" == some "true"
          let isChecked := attrGet n "checked" == some "true"
          let isPassword := attrGet n "password" == some "true"
          let isSelected := attrGet n "selected" == some "true"
          some ([("id", JValue.str resourceId),
                 ("text", JValue.str text),
                 ("content-desc", JValue.str contentDesc),
                 ("type", JValue.str elementType),
                 ("bounds", JValue.str bounds),
                 ("center", JValue.arr [JValue.num centerX, JValue.num centerY]),
                 ("clickable", JValue.bool isClickable),
                 ("enabled", JValue.bool isEnabled)]
            ++ (if pack != "" then [("package", JValue.str pack)] else [])
            ++ (if isFocusable then
                  [("focusable", JValue.bool true)]
                    ++ (if isFocused then [("focused", JValue.bool true)] else [])
                else [])
            ++ (if isLongClickable then [("long-clickable", JValue.bool true)] else [])
            ++ (if isScrollable then [("scrollable", JValue.bool true)] else [])
            ++ (if isCheckable then
                  [("checkable", JValue.bool true)]
                    ++ (if isChecked then [("checked", JValue.bool true)] else [])
                else [])
            ++ (if isPassword then [("password", JValue.bool true)] else [])
            ++ (if isSelected then [("selected", JValue.bool true)] else [])
            ++ (if hint != "" then [("hint", JValue.str hint)] else [])
            ++ [("action", JValue.str
                  (if isClickable then "tap" else if isFocusable then "focus" else "read"))])

/-- One iteration of the `get_interactive_elements` loop body: the element
this node contributes to the output, if any. -/
def processNode (n : XMLNode) : Option JObj :=
  if isInteractiveElement n then extractElementData n else none

mutual

/-- `root.iter()`: the node and all its descendants, in document order. -/
def XMLNode.preorder : XMLNode → List XMLNode
  | .mk a cs => .mk a cs :: preorderList cs

/-- Document-order traversal of a forest. -/
def preorderList : List XMLNode → List XMLNode
  | [] => []
  | n :: rest => n.preorder ++ preorderList rest

end

/-- `get_interactive_elements` on an already-parsed tree: every node in
document order, keeping the element dicts of interactive nodes with
usable bounds.  (`ET.fromstring` failure — the `XMLParseError` path — is
upstream of this tree input.) -/
def getInteractiveElements (root : XMLNode) : List JObj :=
  root.preorder.filterMap processNode

/-! ## Sanitizer claims -/

/-- A node carrying only `focus="true"` and valid bounds: it satisfies
every hypothesis of claim C1 (clickable not `"true"`, focusable not
`"true"`, empty text, empty description), yet the sanitizer emits an
element for it, because `_is_interactive_element` also accepts a node
whose `focus` attribute is `"true"`. -/
def focusOnlyNode : XMLNode :=
  XMLNode.mk [("focus", "true"), ("bounds", "[0,0][10,10]")] []

/-- Claim C1 as stated is false: `focusOnlyNode` is not clickable, not
focusable, has empty text and empty description, yet
`get_interactive_elements` on the tree containing exactly this node
returns one element for it. -/
theorem sanitizer_c1_counterexample :
    attrGet focusOnlyNode "clickable" ≠ some "true"
    ∧ attrGet focusOnlyNode "focusable" ≠ some "true"
    ∧ attrGetD focusOnlyNode "text" "" = ""
    ∧ attrGetD focusOnlyNode "content-desc" "" = ""
    ∧ getInteractiveElements focusOnlyNode =
        [[("id", JValue.str ""), ("text", JValue.str ""),
          ("content-desc", JValue.str ""), ("type", JValue.str ""),
          ("bounds", JValue.str "[0,0][10,10]"),
          ("center", JValue.arr [JValue.num 5, JValue.num 5]),
          ("clickable", JValue.bool false), ("enabled", JValue.bool true),
          ("action", JValue.str "read")]] :=
  ⟨by decide, by decide, rfl, rfl, rfl⟩

/-- Claim C1, amended: a node whose `clickable`, `focus` and `focusable`
attributes are all different from `"true"` and whose text and content
description are empty contributes no element to the sanitizer output
(which is the `filterMap` of `processNode` over the document-order
traversal); in particular the output for the tree consisting of that node
alone is empty. -/
theorem sanitizer_noninteractive_node_excluded (n : XMLNode)
    (hclick : attrGet n "clickable" ≠ some "true")
    (hfocus : attrGet n "focus" ≠ some "true")
    (hfocusable : attrGet n "focusable" ≠ some "true")
    (htext : attrGetD n "text" "" = "")
    (hdesc : attrGetD n "content-desc" "" = "") :
    processNode n = none
    ∧ getInteractiveElements (XMLNode.mk n.attrib []) = [] := by
  have h1 : (attrGet n "clickable" == some "true") = false := beq_eq_false_iff_ne.mpr hclick
  have h2 : (attrGet n "focus" == some "true") = false := beq_eq_false_iff_ne.mpr hfocus
  have h3 : (attrGet n "focusable" == some "true") = false := beq_eq_false_iff_ne.mpr hfocusable
  have hi : isInteractiveElement n = false := by
    simp [isInteractiveElement, h1, h2, h3, htext, hdesc]
  have hpn : processNode n = none := by
    simp [processNode, hi]
  have hi2 : isInteractiveElement (XMLNode.mk n.attrib []) = false := hi
  refine ⟨hpn, ?_⟩
  simp [getInteractiveElements, XMLNode.preorder, preorderList, processNode, hi2]

/-- Witness for `sanitizer_noninteractive_node_excluded`, at a concrete
decorative node (scrollable only). -/
theorem sanitizer_noninteractive_node_excluded_witness :
    processNode (XMLNode.mk [("scrollable", "true"), ("bounds", "[0,0][5,5]")] []) = none := by
  exact (sanitizer_noninteractive_node_excluded
    (XMLNode.mk [("scrollable", "true"), ("bounds", "[0,0][5,5]")] [])
    (by decide) (by decide) (by decide) rfl rfl).1

/-- Claim C5: an interactive node whose bounds attribute parses to
`(a, b, c, d)` yields an element whose center is the floor-division
midpoint `((a+c)//2, (b+d)//2)` when `a < c` and `b < d`, and is excluded
when `a = c` or `b = d`. -/
theorem sanitizer_center_floor_div (n : XMLNode) (s : String) (a b c d : Int)
    (hb : attrGet n "bounds" = some s)
    (hp : parseBounds s = some (a, b, c, d))
    (hi : isInteractiveElement n = true) :
    ((a < c ∧ b < d) → ∃ e, processNode n = some e ∧
        alGet e "center" =
          some (JValue.arr [JValue.num ((a + c).fdiv 2), JValue.num ((b + d).fdiv 2)]))
    ∧ ((a = c ∨ b = d) → processNode n = none) := by
  have hs : (s == "") = false := by
    refine beq_eq_false_iff_ne.mpr ?_
    intro hse
    subst hse
    rw [show parseBounds "" = none from by decide] at hp
    exact Option.noConfusion hp
  have hpn : processNode n = extractElementData n := by simp [processNode, hi]
  constructor
  · rintro ⟨hac, hbd⟩
    have hv : isValidBounds a b c d = true := by
      simp only [isValidBounds, Bool.and_eq_true, decide_eq_true_eq]
      omega
    rw [hpn]
    simp only [extractElementData, hb, hs, hp, hv]
    exact ⟨_, rfl, rfl⟩
  · intro hdeg
    have hv : isValidBounds a b c d = false := by
      simp only [isValidBounds]
      rcases hdeg with h | h <;> simp [h]
    rw [hpn]
    simp only [extractElementData, hb, hs, hp, hv]
    simp

/-- Witness for `sanitizer_center_floor_div`: a clickable node with bounds
`[10,20][30,41]` produces center `(20, 30)`. -/
theorem sanitizer_center_floor_div_witness :
    ∃ e, processNode (XMLNode.mk [("clickable", "true"), ("bounds", "[10,20][30,41]")] []) = some e
      ∧ alGet e "center" = some (JValue.arr [JValue.num 20, JValue.num 30]) := by
  have h := (sanitizer_center_floor_div
    (XMLNode.mk [("clickable", "true"), ("bounds", "[10,20][30,41]")] [])
    "[10,20][30,41]" 10 20 30 41 rfl (by decide) (by decide)).1 ⟨by decide, by decide⟩
  exact h

/-! ## JSON parsing (model of `json.loads`)

The decision engine's structured-text strategy decodes provider replies
with the standard-library `json.loads`; this executable recursive-descent
parser models it.  Numbers are integers (a fractional or exponent part is
rejected; no claim exercises floats), strings support the standard
escapes. -/

/-- JSON insignificant whitespace. -/
def skipWs (s : List Char) : List Char :=
  s.dropWhile (fun c => c == ' ' || c == '\t' || c == '\n' || c == '\r')

/-- One hexadecimal digit. -/
def hexDigit? (c : Char) : Option Nat :=
  if c.isDigit then some (c.toNat - 48)
  else if 'a' ≤ c && c ≤ 'f' then some (c.toNat - 87)
  else if 'A' ≤ c && c ≤ 'F' then some (c.toNat - 55)
  else none

/-- Body of a JSON string after the opening quote: the decoded characters
and the remaining input after the closing quote. -/
def parseStrBody : List Char → Option (List Char × List Char)
  | [] => none
  | '"' :: rest => some ([], rest)
  | '\\' :: 'u' :: h1 :: h2 :: h3 :: h4 :: rest =>
    match hexDigit? h1, hexDigit? h2, hexDigit? h3, hexDigit? h4 with
    | some a, some b, some c, some d =>
      (parseStrBody rest).map (fun p =>
        (Char.ofNat (((a * 16 + b) * 16 + c) * 16 + d) :: p.1, p.2))
    | _, _, _, _ => none
  | '\\' :: e :: rest =>
    let dec : Option Char :=
      if e == '"' then some '"'
      else if e == '\\' then some '\\'
      else if e == '/' then some '/'
      else if e == 'n' then some '\n'
      else if e == 't' then some '\t'
      else if e == 'r' then some '\r'
      else if e == 'b' then some (Char.ofNat 8)
      else if e == 'f' then some (Char.ofNat 12)
      else none
    match dec with
    | some c => (parseStrBody rest).map (fun p => (c :: p.1, p.2))
    | none => none
  | c :: rest => (parseStrBody rest).map (fun p => (c :: p.1, p.2))

/-- The value of a digit run. -/
def natOfDigits (ds : List Char) : Nat :=
  ds.foldl (fun acc c => acc * 10 + (c.toNat - 48)) 0

/-- A JSON integer literal: digits not followed by `.`/`e`/`E`. -/
def parseNatNum (s : List Char) : Option (Nat × List Char) :=
  let ds := s.takeWhile Char.isDigit
  if ds.isEmpty then none
  else
    let rest := s.dropWhile Char.isDigit
    match rest with
    | c :: _ => if c == '.' || c == 'e' || c == 'E' then none else some (natOfDigits ds, rest)
    | [] => some (natOfDigits ds, [])

/-- A JSON number (integer model), with optional leading minus. -/
def parseNum (s : List Char) : Option (Int × List Char) :=
  match s with
  | '-' :: rest => (parseNatNum rest).map (fun p => (-(p.1 : Int), p.2))
  | _ => (parseNatNum s).map (fun p => ((p.1 : Int), p.2))

mutual

/-- A JSON value from the front of the input. -/
def parseVal : Nat → List Char → Option (JValue × List Char)
  | 0, _ => none
  | fuel + 1, s =>
    let t := skipWs s
    if "null".toList.isPrefixOf t then some (.null, t.drop 4)
    else if "true".toList.isPrefixOf t then some (.bool true, t.drop 4)
    else if "false".toList.isPrefixOf t then some (.bool false, t.drop 5)
    else
      match t with
      | [] => none
      | c :: rest =>
        if c == '"' then (parseStrBody rest).map (fun p => (.str (String.mk p.1), p.2))
        else if c == '[' then
          match skipWs rest with
          | ']' :: r2 => some (.arr [], r2)
          | _ => (parseArrItems fuel rest).map (fun p => (.arr p.1, p.2))
        else if c == Char.ofNat 123 then
          match skipWs rest with
          | d :: r2 => if d == Char.ofNat 125 then some (.obj [], r2)
                       else (parseObjItems fuel rest).map (fun p => (.obj p.1, p.2))
          | [] => none
        else (parseNum t).map (fun p => (.num p.1, p.2))

/-- Comma-separated array items up to the closing bracket. -/
def parseArrItems : Nat → List Char → Option (List JValue × List Char)
  | 0, _ => none
  | fuel + 1, s =>
    match parseVal fuel s with
    | none => none
    | some (v, r) =>
      match skipWs r with
      | c :: r2 =>
        if c == ',' then (parseArrItems fuel r2).map (fun p => (v :: p.1, p.2))
        else if c == ']' then some ([v], r2)
        else none
      | [] => none

/-- Comma-separated `"key": value` members up to the closing brace. -/
def parseObjItems : Nat → List Char → Option (List (String × JValue) × List Char)
  | 0, _ => none
  | fuel + 1, s =>
    match skipWs s with
    | c :: rest =>
      if c == '"' then
        match parseStrBody rest with
        | none => none
        | some (k, r) =>
          match skipWs r with
          | c2 :: r2 =>
            if c2 == ':' then
              match parseVal fuel r2 with
              | none => none
              | some (v, r3) =>
                match skipWs r3 with
                | c3 :: r4 =>
                  if c3 == ',' then
                    (parseObjItems fuel r4).map (fun p => ((String.mk k, v) :: p.1, p.2))
                  else if c3 == Char.ofNat 125 then some ([(String.mk k, v)], r4)
                  else none
                | [] => none
            else none
          | [] => none
      else none
    | [] => none

end

/-- `json.loads(s)`: one JSON value followed only by whitespace. -/
def parseJson (s : String) : Option JValue :=
  match parseVal (4 * s.length + 4) s.toList with
  | some (v, rest) => if (skipWs rest).isEmpty then some v else none
  | none => none

/-! ## Decision engine (src/android_action_kernel/llm/) -/

/-- `JSONModeClient.get_decision`, decode portion: given the reply
content string (transport and prompt assembly are outside the decode),
strip it, reject empty content, parse as JSON, reject non-objects and
objects without an `action` field, and otherwise return the parsed dict
unchanged.  Error values carry the `LLMError` message (the handler's
outer `except Exception` re-raises these with an `LLMError: ` prefix;
`wrapLLMError` applies it). -/
def jsonModeDecode (content : String) : Except String JObj :=
  let c := pyStripStr content
  if c == "" then .error "Empty or whitespace-only content in LLM response"
  else
    match parseJson c with
    | none => .error ("Failed to parse LLM response as JSON\nResponse content (first 200 chars): "
        ++ String.mk (c.toList.take 200))
    | some v =>
      match v with
      | .obj o =>
        if (alGet o "action").isNone then
          .error ("LLM response missing required \x27action\x27 field.\nResponse keys: ["
            ++ String.intercalate ", " (o.map (fun p => "\x27" ++ p.1 ++ "\x27"))
            ++ "]\nResponse: " ++ String.mk (c.toList.take 300))
        else .ok o
      | _ => .error ("LLM response is not a JSON object.\nResponse: "
          ++ String.mk (c.toList.take 200))

/-- Python `int(float(s))` for a plain decimal string, as used to coerce
string coordinates: optional sign, integer digits, optional fractional
digits (truncated toward zero); `none` for non-numeric input (the
`ValueError` path).  Exponent and special float forms are outside the
model; no claim exercises them. -/
def pyFloatInt? (s : String) : Option Int :=
  let t := pyStrip s.toList
  let core : List Char → Option Nat := fun u =>
    let ipart := u.takeWhile Char.isDigit
    match u.dropWhile Char.isDigit with
    | [] => if ipart.isEmpty then none else some (natOfDigits ipart)
    | '.' :: frac =>
      if frac.all Char.isDigit && !(ipart.isEmpty && frac.isEmpty) then
        some (natOfDigits ipart)
      else none
    | _ => none
  match t with
  | '+' :: u => (core u).map (fun n => (n : Int))
  | '-' :: u => (core u).map (fun n => -(n : Int))
  | u => (core u).map (fun n => (n : Int))

/-- The `float(...)` coercion applied to one coordinate entry, truncated
to `int`: numbers pass through, numeric strings are parsed, booleans are
0/1; `none` is the `(ValueError, TypeError)` path. -/
def coerceCoord : JValue → Option Int
  | .num n => some n
  | .str s => pyFloatInt? s
  | .bool b => some (if b then 1 else 0)
  | _ => none

/-- `FunctionCallingClient.get_decision`, conversion portion: from the
first tool invocation's function name and parsed arguments object to the
action dict.  The rationale defaults to the fixed placeholder; `tap`
coordinates are coerced to integers; `type` text is required non-empty.
Error values carry the `LLMError` message before the outer
`except Exception` re-wrap. -/
def fcDecode (name : String) (args : JObj) : Except String JObj :=
  let reasonV := (alGet args "reason").getD (JValue.str "No reason provided")
  let base : JObj := [("action", JValue.str name), ("reason", reasonV)]
  if name == "tap" then
    let coordinates := (alGet args "coordinates").getD (JValue.arr [])
    if jFalsy coordinates then .error "Tap action missing \x27coordinates\x27 field"
    else
      match coordinates with
      | .arr [a, b] =>
        match coerceCoord a, coerceCoord b with
        | some x, some y => .ok (base ++ [("coordinates", JValue.arr [JValue.num x, JValue.num y])])
        | _, _ => .error ("Failed to parse coordinates: " ++ pyStr coordinates)
      | _ => .error ("Invalid coordinates format: " ++ pyStr coordinates)
  else if name == "type" then
    match alGet args "text" with
    | none => .error "Type action missing \x27text\x27 field"
    | some t =>
      if jFalsy t then .error "Type action missing \x27text\x27 field"
      else .ok (base ++ [("text", JValue.str (pyStr t))])
  else .ok base

/-- The function-calling handler's `LLMError` message when the response
carries no tool invocation, with and without reply content
(`content[:200]` is appended when content is truthy). -/
def noFunctionCallMsg (finishReason : String) (content : Option String) : String :=
  match content with
  | some c =>
    if c == "" then "No function call in LLM response. Finish reason: " ++ finishReason
    else "No function call in LLM response. Finish reason: " ++ finishReason
      ++ ", Content: " ++ String.mk (c.toList.take 200)
  | none => "No function call in LLM response. Finish reason: " ++ finishReason

/-- The function-calling handler's `LLMError` message when the tool
invocation's argument string is not valid JSON. -/
def malformedArgsMsg (jsonErr rawArgs : String) : String :=
  "Failed to parse function arguments as JSON: " ++ jsonErr
    ++ "\nRaw arguments: \x27" ++ rawArgs ++ "\x27"

/-- The handlers' outer `except Exception` clause: every internal
`LLMError` is re-raised as `LLMError(f"{type(e).__name__}: {str(e)}")`. -/
def wrapLLMError (msg : String) : String :=
  "LLMError: " ++ msg

/-- The fallback keyword phrases of `LLMClient.get_decision`. -/
def fallbackKeywords : List String :=
  ["function call", "tool_call", "tool call", "no function"]

/-- `LLMClient.get_decision`'s fallback test: some keyword phrase occurs
in the lowercased failure message. -/
def shouldFallbackToJson (msg : String) : Bool :=
  fallbackKeywords.any (fun k => pyIn k.toList (msg.toList.map Char.toLower))

/-- `LLMClient.get_decision`: return the primary handler's decision; on
an `LLMError` whose message matches a fallback keyword, and only for the
`ollama` provider (the only configuration with a JSON-mode fallback
handler), return the fallback handler's outcome instead; every other
failure propagates unchanged. -/
def llmGetDecision (provider : String) (handlerResult fallbackResult : Except String JObj) :
    Except String JObj :=
  match handlerResult with
  | .ok a => .ok a
  | .error msg =>
    if provider == "ollama" && shouldFallbackToJson msg then fallbackResult
    else .error msg

/-! ## Decision-engine claims -/

/-- A prefix of a list is a prefix of any right-extension. -/
theorem isPrefixOf_append_left :
    ∀ (p l r : List Char), p.isPrefixOf l = true → p.isPrefixOf (l ++ r) = true := by
  intro p
  induction p with
  | nil => intro l r _; simp
  | cons x xs ih =>
    intro l r h
    cases l with
    | nil => simp at h
    | cons y ys =>
      rw [List.cons_append]
      rw [List.isPrefixOf_cons₂] at h ⊢
      rcases Bool.and_eq_true _ _ |>.mp h with ⟨h1, h2⟩
      exact Bool.and_eq_true _ _ |>.mpr ⟨h1, ih ys r h2⟩

/-- `pyIn` is preserved by extending the haystack on the right. -/
theorem pyIn_append_left :
    ∀ (needle a b : List Char), pyIn needle a = true → pyIn needle (a ++ b) = true := by
  have hnil : ∀ l : List Char, pyIn [] l = true := by
    intro l
    cases l <;> simp [pyIn, List.isEmpty]
  intro needle a
  induction a with
  | nil =>
    intro b h
    simp only [pyIn, List.isEmpty_iff] at h
    subst h
    simpa using hnil b
  | cons c t ih =>
    intro b h
    simp only [pyIn, Bool.or_eq_true] at h
    rcases h with h | h
    · rw [List.cons_append]
      simp only [pyIn, Bool.or_eq_true]
      exact Or.inl (isPrefixOf_append_left _ _ _ h)
    · rw [List.cons_append]
      simp only [pyIn, Bool.or_eq_true]
      exact Or.inr (ih b h)

/-- `(a ++ b).toList` splits. -/
theorem strToList_append (a b : String) : (a ++ b).toList = a.toList ++ b.toList :=
  String.data_append a b

/-- If the first fallback phrase occurs in the lowercased message, the
fallback test succeeds. -/
theorem shouldFallback_of_pyIn (msg : String)
    (h : pyIn "function call".toList (msg.toList.map Char.toLower) = true) :
    shouldFallbackToJson msg = true := by
  simp only [shouldFallbackToJson, fallbackKeywords, List.any_cons, Bool.or_eq_true]
  exact Or.inl h

/-- The no-tool-invocation failure message always matches the fallback
keywords, for every finish reason and reply content. -/
theorem shouldFallback_noFunctionCall (finish : String) (content : Option String) :
    shouldFallbackToJson (wrapLLMError (noFunctionCallMsg finish content)) = true := by
  have key : pyIn "function call".toList
      (((("LLMError: " ++ "No function call in LLM response. Finish reason: ").toList)).map
        Char.toLower) = true := by decide
  have main : ∀ rest : String,
      shouldFallbackToJson ("LLMError: " ++
        ("No function call in LLM response. Finish reason: " ++ rest)) = true := by
    intro rest
    apply shouldFallback_of_pyIn
    rw [strToList_append, strToList_append, ← List.append_assoc, List.map_append]
    rw [show "LLMError: ".toList ++ "No function call in LLM response. Finish reason: ".toList
        = ("LLMError: " ++ "No function call in LLM response. Finish reason: ").toList from
        (strToList_append _ _).symm]
    exact pyIn_append_left _ _ _ key
  rcases content with _ | c
  · simp only [noFunctionCallMsg, wrapLLMError]
    exact main finish
  · simp only [noFunctionCallMsg, wrapLLMError]
    by_cases hce : (c == "") = true
    · rw [if_pos hce]
      exact main finish
    · rw [if_neg hce]
      rw [show ("No function call in LLM response. Finish reason: " ++ finish
          ++ ", Content: " ++ String.mk (c.toList.take 200))
          = ("No function call in LLM response. Finish reason: "
            ++ (finish ++ ", Content: " ++ String.mk (c.toList.take 200))) from by
        simp [String.ext_iff, String.data_append]]
      exact main _

/-- Claim C3 as stated is false on the malformed-arguments failure: the
wrapped "Failed to parse function arguments as JSON" message matches no
fallback keyword, so with an ollama configuration and a fallback that
would succeed, the engine propagates the error instead of retrying with
the structured-text strategy. -/
theorem llm_fallback_malformed_args_counterexample :
    shouldFallbackToJson (wrapLLMError (malformedArgsMsg
        "Expecting value: line 1 column 1 (char 0)" "not json")) = false
    ∧ llmGetDecision "ollama"
        (.error (wrapLLMError (malformedArgsMsg
          "Expecting value: line 1 column 1 (char 0)" "not json")))
        (.ok [("action", JValue.str "done")])
      = .error (wrapLLMError (malformedArgsMsg
          "Expecting value: line 1 column 1 (char 0)" "not json")) :=
  ⟨by decide, rfl⟩

/-- Claim C3, amended: for the ollama provider a failed decision is
retried once with the structured-text fallback exactly when the failure
message (lowercased) contains one of the phrases "function call",
"tool_call", "tool call", "no function".  The no-invocation failure
message always matches, so it is retried once; the malformed-argument
message and transport failures do not match and propagate directly; a
non-ollama provider never falls back. -/
theorem llm_fallback_policy :
    (∀ finish content,
      shouldFallbackToJson (wrapLLMError (noFunctionCallMsg finish content)) = true)
    ∧ (∀ (fb : Except String JObj) msg, shouldFallbackToJson msg = true →
        llmGetDecision "ollama" (.error msg) fb = fb)
    ∧ (∀ (fb : Except String JObj) msg, shouldFallbackToJson msg = false →
        llmGetDecision "ollama" (.error msg) fb = .error msg)
    ∧ (∀ (fb : Except String JObj) msg p, p ≠ "ollama" →
        llmGetDecision p (.error msg) fb = .error msg)
    ∧ shouldFallbackToJson "APIConnectionError: Connection error." = false := by
  refine ⟨shouldFallback_noFunctionCall, ?_, ?_, ?_, by decide⟩
  · intro fb msg h
    simp [llmGetDecision, h]
  · intro fb msg h
    simp [llmGetDecision, h]
  · intro fb msg p hp
    have : (p == "ollama") = false := beq_eq_false_iff_ne.mpr hp
    simp [llmGetDecision, this]

/-- Witness for `llm_fallback_policy`: the concrete no-invocation failure
is answered by the fallback's decision. -/
theorem llm_fallback_policy_witness :
    llmGetDecision "ollama"
      (.error (wrapLLMError (noFunctionCallMsg "stop" none)))
      (.ok [("action", JValue.str "done")])
    = .ok [("action", JValue.str "done")] :=
  llm_fallback_policy.2.1 _ _ (llm_fallback_policy.1 "stop" none)

/-- Claim C4 as stated is false for the structured-text strategy: the
JSON-mode decode returns the parsed object unchanged, so a reply
`{"action":"done","coordinates":[1,2]}` yields an Action with no
rationale field and with a parameter irrelevant to `done`. -/
theorem json_mode_no_canonicalization_counterexample :
    jsonModeDecode "\x7b\"action\":\"done\",\"coordinates\":[1,2]\x7d"
      = .ok [("action", JValue.str "done"),
             ("coordinates", JValue.arr [JValue.num 1, JValue.num 2])]
    ∧ alGet [("action", JValue.str "done"),
             ("coordinates", JValue.arr [JValue.num 1, JValue.num 2])] "reason" = none
    ∧ alGet [("action", JValue.str "done"),
             ("coordinates", JValue.arr [JValue.num 1, JValue.num 2])] "coordinates"
        = some (JValue.arr [JValue.num 1, JValue.num 2]) :=
  ⟨rfl, rfl, rfl⟩

/-- Claim C4, amended: the tool-call strategy canonicalizes — every
Action it returns carries a `reason` (the fixed placeholder when the
provider omitted one) and only the keys relevant to its tag (`action`,
`reason`, plus `coordinates` for `tap` or `text` for `type`); the
structured-text strategy instead returns the parsed JSON object as-is. -/
theorem fc_decision_canonicalized (name : String) (args : JObj) (act : JObj)
    (h : fcDecode name args = .ok act) :
    (∃ r, alGet act "reason" = some r)
    ∧ (alGet args "reason" = none → alGet act "reason" = some (JValue.str "No reason provided"))
    ∧ (∀ kv ∈ act, kv.1 = "action" ∨ kv.1 = "reason"
        ∨ (name = "tap" ∧ kv.1 = "coordinates") ∨ (name = "type" ∧ kv.1 = "text")) := by
  by_cases htap : (name == "tap") = true
  · have hname : name = "tap" := eq_of_beq htap
    simp only [fcDecode, htap, if_true] at h
    split at h
    · exact absurd h (by simp)
    · split at h
      · split at h
        · rw [Except.ok.injEq] at h
          subst h
          refine ⟨⟨_, rfl⟩, ?_, ?_⟩
          · intro hr
            simp [alGet, hr]
          · intro kv hkv
            simp only [List.cons_append, List.nil_append, List.mem_cons,
              List.not_mem_nil, or_false] at hkv
            rcases hkv with h1 | h1 | h1 <;> subst h1 <;> simp [hname]
        · exact absurd h (by simp)
      · exact absurd h (by simp)
  · by_cases hty : (name == "type") = true
    · have hname : name = "type" := eq_of_beq hty
      simp only [fcDecode, htap, hty, if_true, Bool.false_eq_true, if_false] at h
      split at h
      · exact absurd h (by simp)
      · split at h
        · exact absurd h (by simp)
        · rw [Except.ok.injEq] at h
          subst h
          refine ⟨⟨_, rfl⟩, ?_, ?_⟩
          · intro hr
            simp [alGet, hr]
          · intro kv hkv
            simp only [List.cons_append, List.nil_append, List.mem_cons,
              List.not_mem_nil, or_false] at hkv
            rcases hkv with h1 | h1 | h1 <;> subst h1 <;> simp [hname]
    · simp only [fcDecode, htap, hty, Bool.false_eq_true, if_false] at h
      rw [Except.ok.injEq] at h
      subst h
      refine ⟨⟨_, rfl⟩, ?_, ?_⟩
      · intro hr
        simp [alGet, hr]
      · intro kv hkv
        simp only [List.mem_cons, List.not_mem_nil, or_false] at hkv
        rcases hkv with h1 | h1 <;> subst h1 <;> simp

/-- Witness for `fc_decision_canonicalized`: a `tap` invocation with
string coordinates and no reason yields the placeholder rationale. -/
theorem fc_decision_canonicalized_witness :
    ∃ r, alGet [("action", JValue.str "tap"),
                ("reason", JValue.str "No reason provided"),
                ("coordinates", JValue.arr [JValue.num 10, JValue.num 20])] "reason" = some r :=
  (fc_decision_canonicalized "tap"
    [("coordinates", JValue.arr [JValue.str "10", JValue.str "20"])]
    [("action", JValue.str "tap"),
     ("reason", JValue.str "No reason provided"),
     ("coordinates", JValue.arr [JValue.num 10, JValue.num 20])] rfl).1

/-- Claim C6: a structured-text decode fails exactly when the reply
content is empty/whitespace-only, is not valid JSON, parses to a
non-object, or lacks the `action` field; the two concrete replies of the
claim decode as stated. -/
theorem json_mode_decode_failure_iff :
    (∀ content : String,
      (∃ e, jsonModeDecode content = .error e) ↔
        (pyStripStr content = ""
          ∨ parseJson (pyStripStr content) = none
          ∨ (∃ v, parseJson (pyStripStr content) = some v ∧ ∀ o, v ≠ JValue.obj o)
          ∨ (∃ o, parseJson (pyStripStr content) = some (JValue.obj o)
              ∧ alGet o "action" = none)))
    ∧ jsonModeDecode "\x7b\"action\":\"tap\",\"coordinates\":[10,20],\"reason\":\"x\"\x7d"
        = .ok [("action", JValue.str "tap"),
               ("coordinates", JValue.arr [JValue.num 10, JValue.num 20]),
               ("reason", JValue.str "x")]
    ∧ (∃ e, jsonModeDecode "\x7b\"reason\":\"x\"\x7d" = .error e) := by
  refine ⟨?_, rfl, ⟨_, rfl⟩⟩
  intro content
  by_cases hc : pyStripStr content = ""
  · have hcb : (pyStripStr content == "") = true := beq_iff_eq.mpr hc
    simp only [jsonModeDecode, hcb, if_true]
    exact iff_of_true ⟨_, rfl⟩ (Or.inl hc)
  · have hcb : (pyStripStr content == "") = false := beq_eq_false_iff_ne.mpr hc
    simp only [jsonModeDecode, hcb, Bool.false_eq_true, if_false]
    rcases hp : parseJson (pyStripStr content) with _ | v
    · exact iff_of_true ⟨_, rfl⟩ (Or.inr (Or.inl rfl))
    · rcases v with _ | b | n | s | xs | o
      · exact iff_of_true ⟨_, rfl⟩
          (Or.inr (Or.inr (Or.inl ⟨_, rfl, fun o h => JValue.noConfusion h⟩)))
      · exact iff_of_true ⟨_, rfl⟩
          (Or.inr (Or.inr (Or.inl ⟨_, rfl, fun o h => JValue.noConfusion h⟩)))
      · exact iff_of_true ⟨_, rfl⟩
          (Or.inr (Or.inr (Or.inl ⟨_, rfl, fun o h => JValue.noConfusion h⟩)))
      · exact iff_of_true ⟨_, rfl⟩
          (Or.inr (Or.inr (Or.inl ⟨_, rfl, fun o h => JValue.noConfusion h⟩)))
      · exact iff_of_true ⟨_, rfl⟩
          (Or.inr (Or.inr (Or.inl ⟨_, rfl, fun o h => JValue.noConfusion h⟩)))
      · by_cases ha : alGet o "action" = none
        · have han : (alGet o "action").isNone = true := by simp [ha]
          simp only [han, if_true]
          exact iff_of_true ⟨_, rfl⟩ (Or.inr (Or.inr (Or.inr ⟨o, rfl, ha⟩)))
        · have han : (alGet o "action").isNone = false := by
            rcases halg : alGet o "action" with _ | r
            · exact absurd halg ha
            · rfl
          simp only [han, Bool.false_eq_true, if_false]
          refine iff_of_false ?_ ?_
          · rintro ⟨e, he⟩
            exact Except.noConfusion he
          · rintro (h | h | ⟨v, hv, hno⟩ | ⟨o2, ho2, ha2⟩)
            · exact hc h
            · exact Option.noConfusion h
            · rw [Option.some.injEq] at hv
              exact hno o hv.symm
            · rw [Option.some.injEq, JValue.obj.injEq] at ho2
              exact ha (ho2 ▸ ha2)

/-- Witness for `json_mode_decode_failure_iff`: whitespace-only content
fails. -/
theorem json_mode_decode_failure_iff_witness :
    ∃ e, jsonModeDecode "   " = Except.error e :=
  (json_mode_decode_failure_iff.1 "   ").mpr (Or.inl rfl)

/-! ## Action executor (src/android_action_kernel/actions.py)

The device transport is an oracle `dev : List String → String` mapping
the argument vector given to `run_adb_command` (without the adb path) to
the command's raw stdout.  Execution returns the ordered observable
effects — issued device commands, console reports, sleeps — or the
`ValueError` message (`ValidationError`).  Paths where CPython would
raise a `TypeError`/`AttributeError` on a wrongly-typed parameter value
are modelled as errors carrying that exception name; no claim exercises
them. -/

/-- An observable effect of executing an action. -/
inductive Effect where
  | cmd (args : List String)
  | note (msg : String)
  | sleepMs (ms : Nat)
deriving DecidableEq

/-- `run_adb_command`: issue the argument vector, return stripped stdout
(stderr/exit-code handling never feeds back into the executor paths
modelled here: every executor call site passes or defaults
`raise_on_error=False`). -/
def runAdb (dev : List String → String) (args : List String) : String :=
  pyStripStr (dev args)

/-- The `wm size` output parse of `_get_screen_dimensions`: take the text
after `"Physical size:"` when present, strip it, split on `"x"` into
exactly two integers.  `none` is the `except Exception` path. -/
def wmParse? (out : String) : Option (Int × Int) :=
  let o := out.toList
  let sizeStr :=
    if pyIn "Physical size:".toList o then
      pyStrip ((pySplit o "Physical size:".toList).getD 1 [])
    else pyStrip o
  match pySplit sizeStr "x".toList with
  | [w, h] =>
    match pyInt? w, pyInt? h with
    | some wi, some hi => some (wi, hi)
    | _, _ => none
  | _ => none

/-- `_get_screen_dimensions`: query `wm size` and parse it, defaulting to
1080×1920 on any failure. -/
def getScreenDimensions (dev : List String → String) : Int × Int :=
  (wmParse? (runAdb dev ["shell", "wm", "size"])).getD (1080, 1920)

/-- Python tuple unpacking `x, y = v` for a sized value of length two
(list of two, two-character string, two-key dict). -/
def pyUnpack2 : JValue → Option (JValue × JValue)
  | .arr [a, b] => some (a, b)
  | .str s =>
    match s.toList with
    | [c1, c2] => some (.str (String.mk [c1]), .str (String.mk [c2]))
    | _ => none
  | .obj [(k1, _), (k2, _)] => some (.str k1, .str k2)
  | _ => none

/-- Python `len(v)` for sized values; `none` is the `TypeError` path. -/
def pyLen? : JValue → Option Nat
  | .arr xs => some xs.length
  | .str s => some s.length
  | .obj fs => some fs.length
  | _ => none

/-- `_handle_tap`. -/
def handleTap (action : JObj) : Except String (List Effect) :=
  let bad : Except String (List Effect) := .error "Tap action requires \x27coordinates\x27 [x, y]"
  match alGet action "coordinates" with
  | none => bad
  | some v =>
    if jFalsy v then bad
    else
      match pyUnpack2 v with
      | some (x, y) =>
        .ok [.note ("👉 Tapping: (" ++ pyStr x ++ ", " ++ pyStr y ++ ")"),
             .cmd ["shell", "input", "tap", pyStr x, pyStr y]]
      | none => if (pyLen? v).isSome then bad else .error "TypeError"

/-- `_handle_type`; spaces become the `%s` escape before transmission. -/
def handleType (action : JObj) : Except String (List Effect) :=
  let bad : Except String (List Effect) := .error "Type action requires \x27text\x27 field"
  match alGet action "text" with
  | none => bad
  | some t =>
    if jFalsy t then bad
    else
      match t with
      | .str s =>
        .ok [.note ("⌨️ Typing: " ++ s),
             .cmd ["shell", "input", "text", String.mk (pyReplace s.toList [' '] ['%', 's'])]]
      | _ => .error "AttributeError"

/-- A fixed keyevent handler (`home`, `back`, `recent`, `settings`,
`notification`). -/
def handleKeyevent (msg code : String) : Except String (List Effect) :=
  .ok [.note msg, .cmd ["shell", "input", "keyevent", code]]

/-- `_handle_wait`: fixed two-second pause. -/
def handleWait : Except String (List Effect) :=
  .ok [.note "⏳ Waiting...", .sleepMs 2000]

/-- `_handle_swipe`. -/
def handleSwipe (action : JObj) : Except String (List Effect) :=
  let s := alGet action "start"
  let e := alGet action "end"
  let duration := (alGet action "duration").getD (.num 300)
  match s with
  | none => .error "Swipe action requires \x27start\x27 [x, y]"
  | some sv =>
    if jFalsy sv then .error "Swipe action requires \x27start\x27 [x, y]"
    else
      match pyUnpack2 sv with
      | none =>
        if (pyLen? sv).isSome then .error "Swipe action requires \x27start\x27 [x, y]"
        else .error "TypeError"
      | some (x1, y1) =>
        match e with
        | none => .error "Swipe action requires \x27end\x27 [x, y]"
        | some ev =>
          if jFalsy ev then .error "Swipe action requires \x27end\x27 [x, y]"
          else
            match pyUnpack2 ev with
            | none =>
              if (pyLen? ev).isSome then .error "Swipe action requires \x27end\x27 [x, y]"
              else .error "TypeError"
            | some (x2, y2) =>
              .ok [.note ("👆 Swiping: (" ++ pyStr x1 ++ ", " ++ pyStr y1 ++ ") → ("
                      ++ pyStr x2 ++ ", " ++ pyStr y2 ++ ")"),
                   .cmd ["shell", "input", "swipe", pyStr x1, pyStr y1, pyStr x2, pyStr y2,
                     pyStr duration]]

/-- `_handle_swipe_down`: vertical gesture from a third of the height to
two thirds, at horizontal center, from live screen dimensions. -/
def handleSwipeDown (dev : List String → String) (action : JObj) : Except String (List Effect) :=
  let wh := getScreenDimensions dev
  let duration := (alGet action "duration").getD (.num 300)
  .ok [.cmd ["shell", "wm", "size"], .note "⬇️ Swiping Down",
       .cmd ["shell", "input", "swipe",
         toString (wh.1.fdiv 2), toString (wh.2.fdiv 3),
         toString (wh.1.fdiv 2), toString ((wh.2 * 2).fdiv 3), pyStr duration]]

/-- `_handle_swipe_up`. -/
def handleSwipeUp (dev : List String → String) (action : JObj) : Except String (List Effect) :=
  let wh := getScreenDimensions dev
  let duration := (alGet action "duration").getD (.num 300)
  .ok [.cmd ["shell", "wm", "size"], .note "⬆️ Swiping Up",
       .cmd ["shell", "input", "swipe",
         toString (wh.1.fdiv 2), toString ((wh.2 * 2).fdiv 3),
         toString (wh.1.fdiv 2), toString (wh.2.fdiv 3), pyStr duration]]

/-- `_handle_swipe_left`. -/
def handleSwipeLeft (dev : List String → String) (action : JObj) : Except String (List Effect) :=
  let wh := getScreenDimensions dev
  let duration := (alGet action "duration").getD (.num 300)
  .ok [.cmd ["shell", "wm", "size"], .note "⬅️ Swiping Left",
       .cmd ["shell", "input", "swipe",
         toString ((wh.1 * 2).fdiv 3), toString (wh.2.fdiv 2),
         toString (wh.1.fdiv 3), toString (wh.2.fdiv 2), pyStr duration]]

/-- `_handle_swipe_right`. -/
def handleSwipeRight (dev : List String → String) (action : JObj) : Except String (List Effect) :=
  let wh := getScreenDimensions dev
  let duration := (alGet action "duration").getD (.num 300)
  .ok [.cmd ["shell", "wm", "size"], .note "➡️ Swiping Right",
       .cmd ["shell", "input", "swipe",
         toString (wh.1.fdiv 3), toString (wh.2.fdiv 2),
         toString ((wh.1 * 2).fdiv 3), toString (wh.2.fdiv 2), pyStr duration]]

/-- `_handle_long_press`: a zero-distance timed swipe. -/
def handleLongPress (action : JObj) : Except String (List Effect) :=
  let bad : Except String (List Effect) := .error "Long press requires \x27coordinates\x27 [x, y]"
  let duration := (alGet action "duration").getD (.num 1000)
  match alGet action "coordinates" with
  | none => bad
  | some v =>
    if jFalsy v then bad
    else
      match pyUnpack2 v with
      | some (x, y) =>
        .ok [.note ("👆 Long pressing: (" ++ pyStr x ++ ", " ++ pyStr y ++ ") for "
                ++ pyStr duration ++ "ms"),
             .cmd ["shell", "input", "swipe", pyStr x, pyStr y, pyStr x, pyStr y, pyStr duration]]
      | none => if (pyLen? v).isSome then bad else .error "TypeError"

/-- The symbolic keycode table of `_handle_key`. -/
def keycodeMap : List (String × String) :=
  [("KEYCODE_ENTER", "66"), ("KEYCODE_DEL", "67"), ("KEYCODE_TAB", "61"),
   ("KEYCODE_DPAD_UP", "19"), ("KEYCODE_DPAD_DOWN", "20"), ("KEYCODE_DPAD_LEFT", "21"),
   ("KEYCODE_DPAD_RIGHT", "22"), ("KEYCODE_MENU", "82"), ("KEYCODE_SEARCH", "84"),
   ("KEYCODE_CLEAR", "28")]

/-- `_handle_key`: well-known names resolve through `keycodeMap` (after
uppercasing); anything else passes through verbatim. -/
def handleKey (action : JObj) : Except String (List Effect) :=
  match alGet action "keycode" with
  | none => .error "Key action requires \x27keycode\x27 field"
  | some kv =>
    if jFalsy kv then .error "Key action requires \x27keycode\x27 field"
    else
      match kv with
      | .str s =>
        let value := (alGet keycodeMap s.toUpper).getD s
        .ok [.note ("⌨️ Pressing key: " ++ s), .cmd ["shell", "input", "keyevent", value]]
      | _ => .error "AttributeError"

/-- `_handle_open_app`: best-effort monkey launch followed by a window
dump used only for verification (inconclusive verification is
non-fatal; the report branching on the dump's text is elided — it never
changes the effect of the action and no claim touches it). -/
def handleOpenApp (action : JObj) : Except String (List Effect) :=
  match alGet action "package" with
  | none => .error "Open app requires \x27package\x27 field"
  | some pv =>
    if jFalsy pv then .error "Open app requires \x27package\x27 field"
    else
      match pv with
      | .str p =>
        .ok [.note ("📱 Opening app: " ++ p),
             .cmd ["shell", "monkey", "-p", p, "-c", "android.intent.category.LAUNCHER", "1"],
             .sleepMs 500,
             .cmd ["shell", "dumpsys", "window", "windows"]]
      | _ => .error "TypeError"

/-- `_handle_get_current_app`: advisory query; it never raises, and its
console report (parsed from the dump text, with a conditional second
`dumpsys activity` query) is elided — no claim touches it. -/
def handleGetCurrentApp : Except String (List Effect) :=
  .ok [.note "🔍 Getting current app information...",
       .cmd ["shell", "dumpsys", "window", "windows"]]

/-- `_handle_get_device_info`: advisory `getprop`/`wm density` queries;
never raises; console report elided. -/
def handleGetDeviceInfo : Except String (List Effect) :=
  .ok [.note "🔍 Getting device information...",
       .cmd ["shell", "getprop", "ro.product.model"],
       .cmd ["shell", "getprop", "ro.build.version.release"],
       .cmd ["shell", "getprop", "ro.build.version.sdk"],
       .cmd ["shell", "getprop", "ro.product.manufacturer"],
       .cmd ["shell", "getprop", "ro.product.device"],
       .cmd ["shell", "wm", "density"]]

/-- `_handle_get_screen_info`: advisory dimension/orientation/density
queries; never raises; console report elided. -/
def handleGetScreenInfo : Except String (List Effect) :=
  .ok [.note "🔍 Getting screen information...",
       .cmd ["shell", "wm", "size"],
       .cmd ["shell", "dumpsys", "input"],
       .cmd ["shell", "wm", "density"]]

/-- `_handle_done`: terminal marker, no device command. -/
def handleDone : Except String (List Effect) :=
  .ok [.note "✅ Goal Achieved."]

/-- The registered tags, in the insertion order of `_action_handlers`. -/
def actionHandlerTags : List String :=
  ["tap", "type", "home", "back", "recent", "settings", "notification", "swipe",
   "swipe_down", "swipe_up", "swipe_left", "swipe_right", "long_press", "key", "open_app",
   "get_current_app", "get_device_info", "get_screen_info", "wait", "done"]

/-- The static near-miss synonym table of `ActionExecutor.execute`. -/
def actionMapping : List (String × String) :=
  [("launch_app", "open_app"), ("navigate", "home"), ("click", "tap"), ("press", "tap"),
   ("scroll", "swipe_down"), ("scroll_down", "swipe_down"), ("scroll_up", "swipe_up")]

/-- Dispatch on a registered tag (guarded by `execute`). -/
def dispatchTag (dev : List String → String) (tag : String) (action : JObj) :
    Except String (List Effect) :=
  if tag == "tap" then handleTap action
  else if tag == "type" then handleType action
  else if tag == "home" then handleKeyevent "🏠 Going Home" "KEYCODE_HOME"
  else if tag == "back" then handleKeyevent "🔙 Going Back" "KEYCODE_BACK"
  else if tag == "recent" then handleKeyevent "📱 Opening Recent Apps" "KEYCODE_APP_SWITCH"
  else if tag == "settings" then handleKeyevent "⚙️ Opening Settings" "KEYCODE_SETTINGS"
  else if tag == "notification" then
    handleKeyevent "🔔 Opening Notification Panel" "KEYCODE_NOTIFICATION"
  else if tag == "swipe" then handleSwipe action
  else if tag == "swipe_down" then handleSwipeDown dev action
  else if tag == "swipe_up" then handleSwipeUp dev action
  else if tag == "swipe_left" then handleSwipeLeft dev action
  else if tag == "swipe_right" then handleSwipeRight dev action
  else if tag == "long_press" then handleLongPress action
  else if tag == "key" then handleKey action
  else if tag == "open_app" then handleOpenApp action
  else if tag == "get_current_app" then handleGetCurrentApp
  else if tag == "get_device_info" then handleGetDeviceInfo
  else if tag == "get_screen_info" then handleGetScreenInfo
  else if tag == "wait" then handleWait
  else handleDone

/-- `ActionExecutor.execute`: require a truthy `action` tag, remap
near-miss tags through `actionMapping` (reporting the remap), reject
unregistered tags with the `ValueError` listing the valid actions, and
dispatch to the tag's handler. -/
def execute (dev : List String → String) (action : JObj) : Except String (List Effect) :=
  match alGet action "action" with
  | none => .error "Action missing \x27action\x27 field"
  | some tv =>
    if jFalsy tv then .error "Action missing \x27action\x27 field"
    else
      match tv with
      | .str t0 =>
        let known := actionHandlerTags.contains t0
        let remap := if known then none else alGet actionMapping (pyLowerStr t0)
        let tag := (remap.getD t0)
        let pre : List Effect :=
          match remap with
          | some m => [.note ("⚠️ Mapped invalid action \x27" ++ t0 ++ "\x27 to \x27" ++ m ++ "\x27")]
          | none => []
        if !actionHandlerTags.contains tag then
          .error ("Unknown action type: " ++ tag ++ ". Valid actions are: "
            ++ String.intercalate ", " actionHandlerTags)
        else
          (dispatchTag dev tag action).map (fun effs => pre ++ effs)
      | _ => .error "AttributeError"

/-! ## Executor claims -/

/-- The effects of `swipe_down` with no explicit duration, in terms of
the (possibly defaulted) screen dimensions. -/
theorem execute_swipe_down_eq (dev : List String → String) :
    execute dev [("action", JValue.str "swipe_down")]
      = .ok [Effect.cmd ["shell", "wm", "size"], Effect.note "⬇️ Swiping Down",
             Effect.cmd ["shell", "input", "swipe",
               toString ((getScreenDimensions dev).1.fdiv 2),
               toString ((getScreenDimensions dev).2.fdiv 3),
               toString ((getScreenDimensions dev).1.fdiv 2),
               toString (((getScreenDimensions dev).2 * 2).fdiv 3), "300"]] := rfl

/-- Claim C7: a `tap` with no coordinates fails with the `ValueError`
message; `scroll_down` is remapped to `swipe_down`, the remap is
reported as the first observable effect, and execution proceeds without
a validation error. -/
theorem executor_tap_validation_and_remap (dev : List String → String) :
    execute dev [("action", JValue.str "tap")]
      = .error "Tap action requires \x27coordinates\x27 [x, y]"
    ∧ ∃ effs, execute dev [("action", JValue.str "scroll_down")]
        = .ok (Effect.note "⚠️ Mapped invalid action \x27scroll_down\x27 to \x27swipe_down\x27"
            :: effs) :=
  ⟨rfl, ⟨_, rfl⟩⟩

/-- Claim C8: against a reported 1080×1920 screen, `swipe_down` issues
exactly the one swipe command from (540,640) to (540,1280) at the
default 300 ms duration; and when the `wm size` reply fails to parse the
executor falls back to 1080×1920 and the action still succeeds with the
same gesture. -/
theorem executor_swipe_down_geometry (dev : List String → String) :
    (dev ["shell", "wm", "size"] = "Physical size: 1080x1920" →
      execute dev [("action", JValue.str "swipe_down")]
        = .ok [Effect.cmd ["shell", "wm", "size"], Effect.note "⬇️ Swiping Down",
               Effect.cmd ["shell", "input", "swipe", "540", "640", "540", "1280", "300"]])
    ∧ (wmParse? (runAdb dev ["shell", "wm", "size"]) = none →
        getScreenDimensions dev = (1080, 1920)
        ∧ execute dev [("action", JValue.str "swipe_down")]
          = .ok [Effect.cmd ["shell", "wm", "size"], Effect.note "⬇️ Swiping Down",
                 Effect.cmd ["shell", "input", "swipe", "540", "640", "540", "1280", "300"]]) := by
  constructor
  · intro h
    have hd : getScreenDimensions dev = (1080, 1920) := by
      unfold getScreenDimensions runAdb
      rw [h]
      decide
    rw [execute_swipe_down_eq, hd]
    exact congrArg Except.ok (by decide)
  · intro h
    have hd : getScreenDimensions dev = (1080, 1920) := by
      unfold getScreenDimensions
      rw [h]
      rfl
    refine ⟨hd, ?_⟩
    rw [execute_swipe_down_eq, hd]
    exact congrArg Except.ok (by decide)

/-- Witness for `executor_swipe_down_geometry`: the concrete reported
size yields the concrete gesture. -/
theorem executor_swipe_down_geometry_witness :
    execute (fun _ => "Physical size: 1080x1920") [("action", JValue.str "swipe_down")]
      = .ok [Effect.cmd ["shell", "wm", "size"], Effect.note "⬇️ Swiping Down",
             Effect.cmd ["shell", "input", "swipe", "540", "640", "540", "1280", "300"]] :=
  (executor_swipe_down_geometry (fun _ => "Physical size: 1080x1920")).1 rfl

/-- Claim C10: a `type` action whose `text` parameter is present but the
empty string fails the required-parameter check (Python truthiness
treats it like a missing field), so an empty string is never typed. -/
theorem executor_type_empty_text_rejected (dev : List String → String) (a : JObj)
    (h1 : alGet a "action" = some (JValue.str "type"))
    (h2 : alGet a "text" = some (JValue.str "")) :
    execute dev a = .error "Type action requires \x27text\x27 field" := by
  simp only [execute, h1]
  simp only [dispatchTag, handleType, h2]
  rfl

/-- Witness for `executor_type_empty_text_rejected`. -/
theorem executor_type_empty_text_rejected_witness :
    execute (fun _ => "") [("action", JValue.str "type"), ("text", JValue.str "")]
      = .error "Type action requires \x27text\x27 field" :=
  executor_type_empty_text_rejected (fun _ => "")
    [("action", JValue.str "type"), ("text", JValue.str "")] rfl rfl

/-! ## Agent loop (src/android_action_kernel/agent.py)

Perception, decision and action are oracles indexed by the step number
(the external world may change between steps).  The loop body of
`AndroidAgent.run` is: perceive, decide, stop successfully on a `done`
tag without executing, otherwise execute and continue; any raised error
aborts the run and propagates (the `except` clause only logs before
re-raising).  The settle-interval sleep and console prints are not
observable to the claims and are elided. -/

/-- The errors that can cross a step boundary. -/
inductive AgentError where
  | screenCapture (msg : String)
  | llmError (msg : String)
  | valueError (msg : String)
  | adbError (msg : String)
deriving DecidableEq

/-- How a run ends when no error is raised. -/
inductive RunOutcome where
  | goalDone
  | budgetExhausted
deriving DecidableEq

/-- A finished run: its outcome plus how many perception, decision and
execution attempts were made. -/
structure RunResult where
  outcome : Except AgentError RunOutcome
  perceptions : Nat
  decisions : Nat
  executions : Nat

/-- `decision.get('action') == 'done'`. -/
def isDoneDecision (dec : JObj) : Bool :=
  match alGet dec "action" with
  | some (JValue.str s) => s == "done"
  | _ => false

/-- The loop of `AndroidAgent.run` from step `k` with `fuel` steps left,
accumulating attempt counts. -/
def runAux (perceive : Nat → Except AgentError String)
    (decide' : Nat → String → Except AgentError JObj)
    (execute' : Nat → JObj → Except AgentError Unit) :
    Nat → Nat → Nat → Nat → Nat → RunResult
  | 0, _, pc, dc, xc => ⟨.ok .budgetExhausted, pc, dc, xc⟩
  | fuel + 1, k, pc, dc, xc =>
    match perceive k with
    | .error e => ⟨.error e, pc + 1, dc, xc⟩
    | .ok ctx =>
      match decide' k ctx with
      | .error e => ⟨.error e, pc + 1, dc + 1, xc⟩
      | .ok dec =>
        if isDoneDecision dec then ⟨.ok .goalDone, pc + 1, dc + 1, xc⟩
        else
          match execute' k dec with
          | .error e => ⟨.error e, pc + 1, dc + 1, xc + 1⟩
          | .ok _ => runAux perceive decide' execute' fuel (k + 1) (pc + 1) (dc + 1) (xc + 1)

/-- `AndroidAgent.run(goal, max_steps)`: at most `maxSteps` steps from
step 0. -/
def agentRun (perceive : Nat → Except AgentError String)
    (decide' : Nat → String → Except AgentError JObj)
    (execute' : Nat → JObj → Except AgentError Unit) (maxSteps : Nat) : RunResult :=
  runAux perceive decide' execute' maxSteps 0 0 0 0

/-! ## Agent loop claims -/

/-- Claim C2: whenever the decision engine returns a `done` action the
loop stops successfully without passing it to the executor — at any
reached step of `runAux` the execution count is left unchanged — and a
run with `maxSteps ≥ 1` whose first decision is `done` performs exactly
one perception, one decision and zero executions and returns
successfully. -/
theorem agent_done_stops_without_executing :
    (∀ perceive decide' execute' fuel k pc dc xc ctx dec,
      perceive k = .ok ctx → decide' k ctx = .ok dec → isDoneDecision dec = true →
      runAux perceive decide' execute' (fuel + 1) k pc dc xc
        = ⟨.ok .goalDone, pc + 1, dc + 1, xc⟩)
    ∧ (∀ perceive decide' execute' n ctx dec, 1 ≤ n →
      perceive 0 = .ok ctx → decide' 0 ctx = .ok dec → isDoneDecision dec = true →
      agentRun perceive decide' execute' n = ⟨.ok .goalDone, 1, 1, 0⟩) := by
  have main : ∀ perceive decide' execute' fuel k pc dc xc ctx dec,
      perceive k = .ok ctx → decide' k ctx = .ok dec → isDoneDecision dec = true →
      runAux perceive decide' execute' (fuel + 1) k pc dc xc
        = ⟨.ok .goalDone, pc + 1, dc + 1, xc⟩ := by
    intro perceive decide' execute' fuel k pc dc xc ctx dec hp hd hdone
    simp only [runAux, hp, hd, hdone, if_true]
  refine ⟨main, ?_⟩
  intro perceive decide' execute' n ctx dec hn hp hd hdone
  rcases Nat.exists_eq_add_of_le hn with ⟨m, hm⟩
  subst hm
  have h := main perceive decide' execute' m 0 0 0 0 ctx dec hp hd hdone
  simpa [agentRun, Nat.add_comm 1 m] using h

/-- Witness for `agent_done_stops_without_executing`: a one-step budget
with an always-`done` engine. -/
theorem agent_done_stops_without_executing_witness :
    agentRun (fun _ => .ok "[]") (fun _ _ => .ok [("action", JValue.str "done")])
      (fun _ _ => .ok ()) 1 = ⟨.ok .goalDone, 1, 1, 0⟩ :=
  agent_done_stops_without_executing.2 _ _ _ 1 "[]" [("action", JValue.str "done")]
    (by decide) rfl rfl rfl

/-- Claim C9: at every reached step of a run — any loop state
`(fuel + 1, k, pc, dc, xc)` of `runAux` — an error raised by perception,
decision or action ends the run right there with that error: the failing
step is not retried and no further steps run (the attempt counters grow
only by the calls made before the failure); in particular a run whose
very first perception fails returns that error after exactly one
perception attempt, for any step budget. -/
theorem agent_error_aborts_run :
    (∀ perceive decide' execute' fuel k pc dc xc (e : AgentError),
      (perceive k = .error e →
        runAux perceive decide' execute' (fuel + 1) k pc dc xc
          = ⟨.error e, pc + 1, dc, xc⟩)
      ∧ (∀ ctx, perceive k = .ok ctx → decide' k ctx = .error e →
        runAux perceive decide' execute' (fuel + 1) k pc dc xc
          = ⟨.error e, pc + 1, dc + 1, xc⟩)
      ∧ (∀ ctx dec, perceive k = .ok ctx → decide' k ctx = .ok dec →
          isDoneDecision dec = false → execute' k dec = .error e →
        runAux perceive decide' execute' (fuel + 1) k pc dc xc
          = ⟨.error e, pc + 1, dc + 1, xc + 1⟩))
    ∧ (∀ perceive decide' execute' n (e : AgentError), 1 ≤ n →
        perceive 0 = .error e →
        agentRun perceive decide' execute' n = ⟨.error e, 1, 0, 0⟩) := by
  have main : ∀ (perceive : Nat → Except AgentError String)
      (decide' : Nat → String → Except AgentError JObj)
      (execute' : Nat → JObj → Except AgentError Unit) fuel k pc dc xc (e : AgentError),
      (perceive k = .error e →
        runAux perceive decide' execute' (fuel + 1) k pc dc xc
          = ⟨.error e, pc + 1, dc, xc⟩)
      ∧ (∀ ctx, perceive k = .ok ctx → decide' k ctx = .error e →
        runAux perceive decide' execute' (fuel + 1) k pc dc xc
          = ⟨.error e, pc + 1, dc + 1, xc⟩)
      ∧ (∀ ctx dec, perceive k = .ok ctx → decide' k ctx = .ok dec →
          isDoneDecision dec = false → execute' k dec = .error e →
        runAux perceive decide' execute' (fuel + 1) k pc dc xc
          = ⟨.error e, pc + 1, dc + 1, xc + 1⟩) := by
    intro perceive decide' execute' fuel k pc dc xc e
    refine ⟨?_, ?_, ?_⟩
    · intro hp
      simp only [runAux, hp]
    · intro ctx hp hd
      simp only [runAux, hp, hd]
    · intro ctx dec hp hd hdone hx
      simp only [runAux, hp, hd, hdone, Bool.false_eq_true, if_false, hx]
  refine ⟨main, ?_⟩
  intro perceive decide' execute' n e hn hp
  rcases Nat.exists_eq_add_of_le hn with ⟨m, hm⟩
  subst hm
  have h := (main perceive decide' execute' m 0 0 0 0 e).1 hp
  simpa [agentRun, Nat.add_comm 1 m] using h

/-- Witness for `agent_error_aborts_run`: perception raising
`MalformedMarkup` (surfaced as the wrapped screen-capture error) on step
1 of a 10-step budget stops the run at once. -/
theorem agent_error_aborts_run_witness :
    agentRun
      (fun _ => .error (.screenCapture
        "Failed to capture screen state: Error parsing XML. The screen might be loading."))
      (fun _ _ => .ok [("action", JValue.str "done")]) (fun _ _ => .ok ()) 10
      = ⟨.error (.screenCapture
          "Failed to capture screen state: Error parsing XML. The screen might be loading."),
         1, 0, 0⟩ :=
  agent_error_aborts_run.2 _ _ _ 10
    (.screenCapture
      "Failed to capture screen state: Error parsing XML. The screen might be loading.")
    (by decide) rfl

/-- Witness for `executor_tap_validation_and_remap`, at a concrete
device oracle. -/
theorem executor_tap_validation_and_remap_witness :
    execute (fun _ => "") [("action", JValue.str "tap")]
      = .error "Tap action requires \x27coordinates\x27 [x, y]" :=
  (executor_tap_validation_and_remap (fun _ => "")).1
